import Mathlib

/-!
Shallow embedding of the snap daemon excerpt:
  * the REST plugin handlers `loadPlugin`, `writeFile`, `unloadPlugin`,
    `swapPlugins` (mgmt/rest plugin handler file),
  * the snapctl metric-listing normalization and `getNamespace`
    (cmd/snapctl metric file),
  * the snapd startup helpers `setMaxProcs`, `validateLevelSettings`,
    flag defaults and scheduler construction (snapd main file).
Bytes are `List Nat`; the SHA-256 digest, the plugin manager
(`Load`/`Unload`/`SwapPlugins`) and the filesystem side effects are
parameters or explicit state, as they are external to the handler code.
-/

/-- Bytes of an uploaded file or of a file on disk. -/
abbrev Bytes := List Nat

/-- A file path as produced by `writeFile`: the identity of the temporary
directory created by `ioutil.TempDir` (fresh names are modelled by a
counter) together with the base file name. -/
structure FPath where
  dir : Nat
  base : String
deriving DecidableEq, Repr

/-- A file on disk: path, content and permission bits. -/
structure FSFile where
  path : FPath
  content : Bytes
  mode : Nat
deriving DecidableEq, Repr

/-- The filesystem state threaded through the handlers: the files present
and the counter supplying fresh temporary-directory names. -/
structure FS where
  files : List FSFile
  tmpCounter : Nat
deriving DecidableEq, Repr

/-- Reading a file: the first entry with the given path, newest first. -/
def lookupFiles : List FSFile → FPath → Option Bytes
  | [], _ => none
  | f :: rest, p => if f.path = p then some f.content else lookupFiles rest p

/-- FS.lookup reads the content of the file at `p`, if present. -/
def FS.lookup (fs : FS) (p : FPath) : Option Bytes :=
  lookupFiles fs.files p

/-- FS.removeDir models `os.RemoveAll(dir)`: every file under the
directory disappears. -/
def FS.removeDir (fs : FS) (d : Nat) : FS :=
  { fs with files := fs.files.filter (fun f => f.path.dir ≠ d) }

/-- FS.wf: every file on disk lives in a directory that the temp-dir
counter has already handed out. `writeFile` preserves this. -/
def FS.wf (fs : FS) : Prop :=
  ∀ f ∈ fs.files, f.path.dir < fs.tmpCounter

/-- Go `filepath.Ext`, scanning the reversed character list: the suffix
beginning at the final dot of the final path element, `""` if none. -/
def goExtRev : List Char → List Char → Option (List Char)
  | [], _ => none
  | c :: rest, acc =>
    if c = '/' then none
    else if c = '.' then some (c :: acc)
    else goExtRev rest (c :: acc)

/-- Go `filepath.Ext` on a file name. -/
def goExt (s : String) : String :=
  match goExtRev s.data.reverse [] with
  | none => ""
  | some l => String.mk l

/-- writeFile follows the source `writeFile`: create a fresh temporary
directory, create the file inside it, write the bytes, and on every
GOOS other than "windows" chmod the file to 0700; returns the new
filesystem and the file's path. -/
def writeFile (goos : String) (fs : FS) (filename : String) (b : Bytes) : FS × FPath :=
  let p : FPath := ⟨fs.tmpCounter, filename⟩
  let mode := if goos ≠ "windows" then 448 else 438
  (⟨⟨p, b, mode⟩ :: fs.files, fs.tmpCounter + 1⟩, p)

/-- One multipart part: the part's file name and its (decompressed)
content. The gzip branch and read errors of the Go loop are elided: a
part stands for its successfully read bytes. -/
structure MPart where
  filename : String
  content : Bytes
deriving DecidableEq, Repr

/-- A plugin as the manager reports it: the `(name, version, type)`
identity (href, signed flag, status and timestamp of the response body
are elided; the claims only inspect the identity). -/
structure SnapPlugin where
  name : String
  version : Int
  ptype : String
deriving DecidableEq, Repr

/-- Response bodies produced by the handlers, reduced to the fields the
claims inspect. -/
inductive RBody where
  | err (msg : String)
  | loaded (lps : List SnapPlugin)
  | unloaded (name : String) (version : Int) (ptype : String)
  | swapped (unName : String) (unVersion : Int) (unType : String) (lps : List SnapPlugin)
deriving DecidableEq, Repr

/-- The error message that the load and swap handlers map to HTTP 409. -/
def PluginAlreadyLoaded : String := "plugin is already loaded"

/-- State of the multipart loop of `loadPlugin` / `swapPlugins`:
filesystem, the written plugin path (`""` is `none`), the signature
bytes and the checksum of the uploaded binary (zero value initially). -/
structure LoadSt where
  fs : FS
  pluginPath : Option FPath
  signature : Bytes
  checkSum : Nat
deriving Repr

/-- loadLoop is the `for { mr.NextPart() ... }` loop shared verbatim by
`loadPlugin` and `swapPlugins`: part 0 must not be an `.asc` file and is
written to disk with its SHA-256 recorded; part 1 must be an `.asc`
file and becomes the signature; a third part is rejected.  An early
`respond` is returned as `some (status, message)`.  (Go's `switch` has
no case for `i ≥ 3`, but the `i == 2` case returns first, so `i ≥ 2`
collapses into one arm.) -/
def loadLoop (sha : Bytes → Nat) (goos : String) :
    List MPart → Nat → LoadSt → LoadSt × Option (Nat × String)
  | [], _, st => (st, none)
  | p :: rest, i, st =>
    match i with
    | 0 =>
      if goExt p.filename = ".asc" then
        (st, some (500, "Error: first file passed to load plugin api can not be signature file"))
      else
        let w := writeFile goos st.fs p.filename p.content
        loadLoop sha goos rest 1
          { st with fs := w.1, pluginPath := some w.2, checkSum := sha p.content }
    | 1 =>
      if goExt p.filename = ".asc" then
        loadLoop sha goos rest 2 { st with signature := p.content }
      else
        (st, some (500, "Error: second file passed was not a signature file"))
    | _ =>
      (st, some (500, "Error: More than two files passed to the load plugin api"))

/-- A requested plugin: path on disk, checksum of the on-disk bytes, and
the detached signature set afterwards. -/
structure RequestedPlugin where
  path : FPath
  checkSum : Nat
  signature : Bytes
deriving DecidableEq, Repr

/-- Modelled from the spec: `core.NewRequestedPlugin` is not in the
excerpt; per the spec's load flow it opens the file at the given path
and records its SHA-256 checksum, failing when the path is empty or the
file is unreadable. -/
def newRequestedPlugin (sha : Bytes → Nat) (fs : FS) :
    Option FPath → Except String RequestedPlugin
  | none => .error "error: no plugin path"
  | some p =>
    match fs.lookup p with
    | none => .error "error: no plugin path"
    | some b => .ok ⟨p, sha b, []⟩

/-- loadFinish is the tail of `loadPlugin` after the multipart loop:
build the requested plugin from the written file, respond 500 when its
checksum differs from the uploaded bytes' checksum, set the signature
and call the manager's `Load`; on failure remove the temporary
directory and respond 409 for `PluginAlreadyLoaded`, else 500; on
success respond 201 with the loaded plugin. -/
def loadFinish (sha : Bytes → Nat)
    (load : RequestedPlugin → Except String SnapPlugin)
    (st : LoadSt) : FS × Nat × RBody :=
  match newRequestedPlugin sha st.fs st.pluginPath with
  | .error m => (st.fs, 500, .err m)
  | .ok rp0 =>
    if rp0.checkSum ≠ st.checkSum then
      (st.fs, 500, .err "Error: CheckSum mismatch on requested plugin to load")
    else
      match load { rp0 with signature := st.signature } with
      | .error m =>
        (st.fs.removeDir rp0.path.dir,
          (if m = PluginAlreadyLoaded then 409 else 500), .err m)
      | .ok pl => (st.fs, 201, .loaded [pl])

/-- loadPlugin is the multipart branch of the `POST /plugins` handler:
run the part loop, then `loadFinish`.  Result: final filesystem, HTTP
status and body.  (The non-multipart branch, which writes no response at
all, and transport read errors are outside the model.) -/
def loadPlugin (sha : Bytes → Nat) (goos : String)
    (load : RequestedPlugin → Except String SnapPlugin)
    (fs : FS) (parts : List MPart) : FS × Nat × RBody :=
  match loadLoop sha goos parts 0 ⟨fs, none, [], 0⟩ with
  | (st, some (s, m)) => (st.fs, s, .err m)
  | (st, none) => loadFinish sha load st

/-- Go `strconv.ParseInt(s, 10, 0)` digit scan: all characters must be
decimal digits and there must be at least one. -/
def parseDecDigits : List Char → Option Nat
  | [] => none
  | l => l.foldl (fun acc c =>
      match acc with
      | none => none
      | some n => if '0' ≤ c ∧ c ≤ '9' then some (n * 10 + (c.toNat - 48)) else none)
      (some 0)

/-- Go `strconv.ParseInt(s, 10, 0)` (bit size 0 is the 64-bit `int`):
optional sign, decimal digits, error on empty, bad characters or
overflow of the signed 64-bit range. -/
def goParseInt64 (s : String) : Option Int :=
  let signed : Int × List Char :=
    match s.data with
    | '+' :: r => (1, r)
    | '-' :: r => (-1, r)
    | r => (1, r)
  match parseDecDigits signed.2 with
  | none => none
  | some n =>
    let v : Int := signed.1 * n
    if -(2 ^ 63) ≤ v ∧ v < 2 ^ 63 then some v else none

/-- unloadPlugin is the `DELETE /plugins/:type/:name/:version` handler:
400 for an unparsable version, then 400 for missing name, then 400 for
missing type; otherwise call the manager's `Unload` (a parameter, as it
is external to the handler), responding 500 with the failure on error
and 200 with the unloaded plugin's identity on success. -/
def unloadPlugin (unload : String → Int → String → Except String SnapPlugin)
    (plName plType plVersion : String) : Nat × RBody :=
  match goParseInt64 plVersion with
  | none => (400, .err "invalid version")
  | some v =>
    if plName = "" then (400, .err "missing plugin name")
    else if plType = "" then (400, .err "missing plugin type")
    else
      match unload plName v plType with
      | .error m => (500, .err m)
      | .ok up => (200, .unloaded up.name up.version up.ptype)

/-- Outcome of the swap handler: a response, or a crash of the handler
goroutine (a nil-error dereference inside `rbody.FromError`). -/
inductive SwapOutcome where
  | crashed
  | resp (fs : FS) (status : Nat) (body : RBody)
deriving DecidableEq, Repr

/-- swapPlugins is the multipart branch of `POST
/plugins/:type/:name/:version`: the same part loop and checksum check as
`loadPlugin`, then parameter validation (400s), then the manager's
`SwapPlugins` returning the new and old plugin.  In the failure branch
the source passes the local variable `err` — which is `nil`, since
`core.NewRequestedPlugin` succeeded — to `rbody.FromError` instead of
the failure `se`; `rbody.FromError` calls `err.Error()`, so a nil error
dereferences nil and the handler crashes (`SwapOutcome.crashed`).  On
success it responds 201 with the swapped-body. -/
def swapPlugins (sha : Bytes → Nat) (goos : String)
    (swap : RequestedPlugin → SnapPlugin → Except String (SnapPlugin × SnapPlugin))
    (fs : FS) (parts : List MPart) (plName plType plVersion : String) : SwapOutcome :=
  match loadLoop sha goos parts 0 ⟨fs, none, [], 0⟩ with
  | (st, some (s, m)) => .resp st.fs s (.err m)
  | (st, none) =>
    match newRequestedPlugin sha st.fs st.pluginPath with
    | .error m => .resp st.fs 500 (.err m)
    | .ok rp0 =>
      if rp0.checkSum ≠ st.checkSum then
        .resp st.fs 500 (.err "Error: CheckSum mismatch on requested plugin to load")
      else
        match goParseInt64 plVersion with
        | none => .resp st.fs 400 (.err "invalid version")
        | some v =>
          if plName = "" then .resp st.fs 400 (.err "missing plugin name")
          else if plType = "" then .resp st.fs 400 (.err "missing plugin type")
          else
            match swap { rp0 with signature := st.signature } ⟨plName, v, plType⟩ with
            | .error _ => .crashed
            | .ok (pl, up) =>
              .resp st.fs 201 (.swapped up.name up.version up.ptype [pl])

/-- Go integer flag of the snapd command line. -/
structure GoIntFlag where
  flagName : String
  usage : String
  value : Int
  envVar : String
deriving DecidableEq, Repr

/-- Go string flag of the snapd command line. -/
structure GoStringFlag where
  flagName : String
  usage : String
  value : String
  envVar : String
deriving DecidableEq, Repr

/-- flMaxProcs as declared in snapd's flag table. -/
def flMaxProcs : GoIntFlag :=
  ⟨"max-procs, c", "Set max cores to use for snap Agent. Default is 1 core.", 1, "GOMAXPROCS"⟩

/-- flNumberOfPLs as declared in snapd's flag table. -/
def flNumberOfPLs : GoIntFlag :=
  ⟨"max-running-plugins, m", "The maximum number of instances of a loaded plugin to run", 3, "SNAP_MAX_PLUGINS"⟩

/-- flCache as declared in snapd's flag table. -/
def flCache : GoStringFlag :=
  ⟨"cache-expiration", "The time limit for which a metric cache entry is valid", "500ms", "SNAP_CACHE_EXPIRATION"⟩

/-- defaultQueueSize constant of snapd's main file. -/
def defaultQueueSize : Nat := 25

/-- defaultPoolSize constant of snapd's main file. -/
def defaultPoolSize : Nat := 4

/-- Queue and worker-pool sizes passed to `scheduler.New`. -/
structure SchedulerConfig where
  collectQSize : Nat
  collectWkrSize : Nat
  publishQSize : Nat
  publishWkrSize : Nat
  processQSize : Nat
  processWkrSize : Nat
deriving DecidableEq, Repr

/-- snapdScheduler records the options snapd's `action` hands to
`scheduler.New`. -/
def snapdScheduler : SchedulerConfig :=
  { collectQSize := defaultQueueSize, collectWkrSize := defaultPoolSize
    publishQSize := defaultQueueSize, publishWkrSize := defaultPoolSize
    processQSize := defaultQueueSize, processWkrSize := defaultPoolSize }

/-- setMaxProcs mirrors snapd's `setMaxProcs`: the value handed to
`runtime.GOMAXPROCS` given the host CPU count `numProcs` and the
requested `maxProcs`. -/
def setMaxProcs (numProcs maxProcs : Int) : Int :=
  if maxProcs ≤ 0 then 1
  else if maxProcs ≤ numProcs then maxProcs
  else numProcs

/-- validateLevelSettings mirrors snapd's `validateLevelSettings`:
the fatal message raised for an out-of-range log level or plugin trust
level, `none` when both are valid.  (`log.Fatal` exits the process, so
the first failing check ends the run.) -/
def validateLevelSettings (logLevel pluginTrust : Int) : Option String :=
  if logLevel < 1 ∨ logLevel > 5 then
    some "log level was invalid (needs: 1-5)"
  else if pluginTrust < 0 ∨ pluginTrust > 2 then
    some "Plugin trust was invalid (needs: 0-2)"
  else none

/-- Go `filepath.SplitList` on a POSIX list: the empty string yields the
empty list, otherwise split on the list separator. -/
def splitList (s : String) : List String :=
  if s = "" then [] else s.splitOn ":"

/-- Outcome of snapd's `action`: a `log.Fatal` (non-zero exit) with its
message, or the daemon reaching its serving loop. -/
inductive Startup where
  | fatal (msg : String)
  | serving
deriving DecidableEq, Repr

/-- actionStartup is the fatal-check skeleton of snapd's `action` in
source order: cache-expiration parse, `setMaxProcs` (never aborts),
`validateLevelSettings`, module starts (`printErrorAndExit` on error),
then for trust level above zero the keyring check — `SplitList` of an
unset path is empty and is fatal, and each listed keyring path must be
openable.  Steps that cannot abort on the claims' conditions (log path,
config file, autodiscover, REST binding) are elided; `cacheOk`,
`moduleErr` and `keyringOk` stand for the outcomes of the external
steps. -/
def actionStartup (logLevel pluginTrust : Int) (keyringPaths : String)
    (cacheOk : Bool) (moduleErr : Option String) (keyringOk : String → Bool) : Startup :=
  if ¬cacheOk then .fatal "invalid cache-expiration format"
  else
    match validateLevelSettings logLevel pluginTrust with
    | some m => .fatal m
    | none =>
      match moduleErr with
      | some m => .fatal m
      | none =>
        if pluginTrust > 0 then
          match splitList keyringPaths with
          | [] => .fatal "need keyring file when trust is on (--keyring-file or -k)"
          | k :: ks => if (k :: ks).all keyringOk then .serving else .fatal "bad keyring file"
        else .serving

/-- Go slice expression `l[low:]`: defined when `0 ≤ low ≤ len(l)`,
otherwise a bounds panic (`none`). -/
def goSliceFrom (l : List Char) (low : Int) : Option (List Char) :=
  if 0 ≤ low ∧ low ≤ l.length then some (l.drop low.toNat) else none

/-- listMetricsNormalize is the namespace-normalization block at the top
of snapctl's `listMetrics`, on the namespace's characters: a non-empty
input not already ending in `/*` gains `*` after a trailing `/` and
`/*` otherwise; the empty input becomes `/*`.  The Go slice expressions
`ns[len(ns)-2:]` and `ns[len(ns)-1:]` are `goSliceFrom`; `none` is the
run-time panic. -/
def listMetricsNormalize (ns : List Char) : Option (List Char) :=
  if ns ≠ [] then
    match goSliceFrom ns ((ns.length : Int) - 2) with
    | none => none
    | some t2 =>
      if t2 ≠ ['/', '*'] then
        match goSliceFrom ns ((ns.length : Int) - 1) with
        | none => none
        | some t1 =>
          if t1 = ['/'] then some (ns ++ ['*']) else some (ns ++ ['/', '*'])
      else some ns
  else some ['/', '*']

/-- Go `strings.Split(s, "/")` on the character list: always a non-empty
list of groups. -/
def splitChar (sep : Char) : List Char → List (List Char)
  | [] => [[]]
  | c :: rest =>
    if c = sep then [] :: splitChar sep rest
    else
      match splitChar sep rest with
      | [] => [[c]]
      | g :: gs => (c :: g) :: gs

/-- A dynamic namespace element of a cataloged metric: name, declared
index and description. -/
structure DynamicElement where
  name : String
  index : Int
  description : String
deriving DecidableEq, Repr

/-- A cataloged metric as the listing sees it, reduced to the fields
`getNamespace` reads (version, unit and timestamps are elided). -/
structure Metric where
  ns : List Char
  dynamic : Bool
  dynamicElements : List DynamicElement
deriving DecidableEq, Repr

/-- Go `slice[i] = x` assignment: defined for `0 ≤ i < len`, otherwise
an index panic (`none`). -/
def goSet {α : Type} (l : List α) (i : Int) (x : α) : Option (List α) :=
  if 0 ≤ i ∧ i < l.length then some (l.set i.toNat x) else none

/-- applyDynElems is the `for _, v := range mt.DynamicElements` loop of
`getNamespace`: assign `"[" + v.Name + "]"` at slice index
`v.Index + 1`. -/
def applyDynElems (segs : List (List Char)) :
    List DynamicElement → Option (List (List Char))
  | [] => some segs
  | v :: rest =>
    match goSet segs (v.index + 1) ('[' :: v.name.data ++ [']']) with
    | none => none
    | some segs2 => applyDynElems segs2 rest

/-- getNamespace mirrors snapctl's `getNamespace`: for a dynamic metric,
split the namespace on `/`, overwrite the slice at each element's
`Index + 1` with the bracketed name, and re-join; otherwise the
namespace unchanged. -/
def getNamespace (mt : Metric) : Option (List Char) :=
  if mt.dynamic then
    (applyDynElems (splitChar '/' mt.ns) mt.dynamicElements).map (List.intercalate ['/'])
  else some mt.ns

/-- pathSegments: the slash-separated path segments of a namespace that
begins with `/` (the groups after the leading slash). -/
def pathSegments (ns : List Char) : List (List Char) :=
  (splitChar '/' ns).tail

/-- specRenderedNamespace follows the claim's words: the metric's
namespace with the path segment at each declared index replaced by the
element's name enclosed in brackets. -/
def specRenderedNamespace (ns : List Char) (es : List DynamicElement) : List Char :=
  '/' :: List.intercalate ['/']
    (es.foldl (fun segs v => segs.set v.index.toNat ('[' :: v.name.data ++ [']']))
      (pathSegments ns))

/-- C9: the daemon defaults match the spec — max-running-plugins 3,
cache-expiration "500ms", and each scheduler stage gets a queue of 25
and a worker pool of 4. -/
theorem snapd_defaults_match_spec :
    flNumberOfPLs.value = 3 ∧ flCache.value = "500ms" ∧
    snapdScheduler.collectQSize = 25 ∧ snapdScheduler.collectWkrSize = 4 ∧
    snapdScheduler.processQSize = 25 ∧ snapdScheduler.processWkrSize = 4 ∧
    snapdScheduler.publishQSize = 25 ∧ snapdScheduler.publishWkrSize = 4 := by
  refine ⟨rfl, rfl, rfl, rfl, rfl, rfl, rfl, rfl⟩

/-- C5: `setMaxProcs` clamps the requested core count to 1 from below
and to the host CPU count from above, and the `max-procs` flag defaults
to 1 when neither the flag nor the `GOMAXPROCS` environment variable is
given. -/
theorem setMaxProcs_spec (m n : Int) :
    (m ≤ 0 → setMaxProcs n m = 1) ∧
    (0 < m → m ≤ n → setMaxProcs n m = m) ∧
    (1 ≤ n → n < m → setMaxProcs n m = n) ∧
    flMaxProcs.value = 1 := by
  refine ⟨fun h => ?_, fun h1 h2 => ?_, fun h1 h2 => ?_, rfl⟩
  · simp [setMaxProcs, h]
  · simp [setMaxProcs, h2]
    omega
  · have hm : ¬m ≤ 0 := by omega
    have hmn : ¬m ≤ n := by omega
    simp [setMaxProcs, hm, hmn]

/-- Witness for C5 at a concrete request: 2 cores requested on a 4-CPU
host gives GOMAXPROCS 2. -/
theorem setMaxProcs_spec_witness : setMaxProcs 4 2 = 2 :=
  (setMaxProcs_spec 2 4).2.1 (by decide) (by decide)

/-- A list of length at least two ends in two characters. -/
lemma exists_last_two (l : List Char) (h : 2 ≤ l.length) :
    ∃ q c1 c2, l = q ++ [c1, c2] := by
  cases hr : l.reverse with
  | nil =>
    have : l = [] := by simpa using congrArg List.reverse hr
    subst this; simp at h
  | cons c2 r2 =>
    cases r2 with
    | nil =>
      have : l = [c2] := by
        have := congrArg List.reverse hr
        simpa using this
      subst this; simp at h
    | cons c1 r =>
      refine ⟨r.reverse, c1, c2, ?_⟩
      have := congrArg List.reverse hr
      simpa using this

/-- Normalization of a bare prefix `q ++ [c1, c2]` (not ending in `/`
nor in `/*`): it gains a trailing `/*`. -/
lemma listMetricsNormalize_bare (q : List Char) (c1 c2 : Char)
    (h1 : ¬(c1 = '/' ∧ c2 = '*')) (h2 : c2 ≠ '/') :
    listMetricsNormalize (q ++ [c1, c2]) = some (q ++ [c1, c2] ++ ['/', '*']) := by
  have hlen : (q ++ [c1, c2]).length = q.length + 2 := by simp
  have hs2 : goSliceFrom (q ++ [c1, c2]) (((q ++ [c1, c2]).length : Int) - 2)
      = some [c1, c2] := by
    rw [hlen]
    unfold goSliceFrom
    rw [if_pos (by constructor <;> [omega; simp])]
    congr 1
    have ht : ((q.length + 2 : Nat) - 2 : Int).toNat = q.length := by omega
    rw [ht]
    exact List.drop_left q [c1, c2]
  have hs1 : goSliceFrom (q ++ [c1, c2]) (((q ++ [c1, c2]).length : Int) - 1)
      = some [c2] := by
    rw [hlen]
    unfold goSliceFrom
    rw [if_pos (by constructor <;> [omega; simp])]
    congr 1
    have ht : ((q.length + 2 : Nat) - 1 : Int).toNat = q.length + 1 := by omega
    rw [ht]
    have : q ++ [c1, c2] = (q ++ [c1]) ++ [c2] := by simp
    rw [this]
    have hl : (q ++ [c1]).length = q.length + 1 := by simp
    rw [← hl]
    exact List.drop_left (q ++ [c1]) [c2]
  have hne : ¬([c1, c2] = ['/', '*']) := by simpa using h1
  simp at hs2 hs1
  simp [listMetricsNormalize, hs2, hs1, hne, h2]

/-- Normalization of an input with a trailing slash: it gains `*`. -/
lemma listMetricsNormalize_slash (p : List Char) (hp : 1 ≤ p.length) :
    listMetricsNormalize (p ++ ['/']) = some (p ++ ['/', '*']) := by
  have hlen : (p ++ ['/']).length = p.length + 1 := by simp
  obtain ⟨q, c2, hq⟩ : ∃ q c2, p = q ++ [c2] := by
    cases hr : p.reverse with
    | nil =>
      have : p = [] := by simpa using congrArg List.reverse hr
      subst this; simp at hp
    | cons c2 r =>
      refine ⟨r.reverse, c2, ?_⟩
      have := congrArg List.reverse hr
      simpa using this
  have hs2 : goSliceFrom (p ++ ['/']) (((p ++ ['/']).length : Int) - 2)
      = some [c2, '/'] := by
    rw [hlen]
    unfold goSliceFrom
    rw [if_pos (by constructor <;> omega)]
    congr 1
    have ht : ((p.length + 1 : Nat) - 2 : Int).toNat = p.length - 1 := by omega
    rw [ht, hq]
    have : (q ++ [c2]) ++ ['/'] = q ++ [c2, '/'] := by simp
    rw [this]
    have hl : (q ++ [c2]).length - 1 = q.length := by simp
    rw [hl]
    exact List.drop_left q [c2, '/']
  have hs1 : goSliceFrom (p ++ ['/']) (((p ++ ['/']).length : Int) - 1)
      = some ['/'] := by
    rw [hlen]
    unfold goSliceFrom
    rw [if_pos (by constructor <;> omega)]
    congr 1
    have ht : ((p.length + 1 : Nat) - 1 : Int).toNat = p.length := by omega
    rw [ht]
    exact List.drop_left p ['/']
  have hne : ¬([c2, '/'] = ['/', '*']) := by
    intro h
    have h2 := congrArg List.tail h
    simp at h2
  simp at hs2 hs1
  simp [listMetricsNormalize, hs2, hs1, hne]

/-- Normalization of an already-wildcarded input: unchanged. -/
lemma listMetricsNormalize_wild (p : List Char) :
    listMetricsNormalize (p ++ ['/', '*']) = some (p ++ ['/', '*']) := by
  have hlen : (p ++ ['/', '*']).length = p.length + 2 := by simp
  have hs2 : goSliceFrom (p ++ ['/', '*']) (((p ++ ['/', '*']).length : Int) - 2)
      = some ['/', '*'] := by
    rw [hlen]
    unfold goSliceFrom
    rw [if_pos (by constructor <;> [omega; simp])]
    congr 1
    have ht : ((p.length + 2 : Nat) - 2 : Int).toNat = p.length := by omega
    rw [ht]
    exact List.drop_left p ['/', '*']
  simp at hs2
  simp [listMetricsNormalize, hs2]

/-- C6: for a bare namespace prefix `p` of length at least two (one not
already ending in `/` or in `/*`), the listing normalizes `p`, `p ++ "/"`
and `p ++ "/*"` to the same query `p ++ "/*"`, so all three fetch the
same metric set; the empty namespace is normalized to `"/*"`. -/
theorem listMetrics_namespace_wildcard (p : List Char) (h2 : 2 ≤ p.length)
    (hs : ¬(['/'] <:+ p)) (hw : ¬(['/', '*'] <:+ p)) :
    listMetricsNormalize p = some (p ++ ['/', '*']) ∧
    listMetricsNormalize (p ++ ['/']) = some (p ++ ['/', '*']) ∧
    listMetricsNormalize (p ++ ['/', '*']) = some (p ++ ['/', '*']) ∧
    listMetricsNormalize [] = some ['/', '*'] := by
  obtain ⟨q, c1, c2, rfl⟩ := exists_last_two p h2
  have hc2 : c2 ≠ '/' := by
    intro h
    exact hs ⟨q ++ [c1], by simp [h]⟩
  have hc12 : ¬(c1 = '/' ∧ c2 = '*') := by
    rintro ⟨ha, hb⟩
    exact hw ⟨q, by simp [ha, hb]⟩
  refine ⟨listMetricsNormalize_bare q c1 c2 hc12 hc2, ?_, ?_, rfl⟩
  · have := listMetricsNormalize_slash (q ++ [c1, c2]) (by simp)
    simpa using this
  · exact listMetricsNormalize_wild (q ++ [c1, c2])

/-- Witness for C6 at the prefix "/a". -/
theorem listMetrics_namespace_wildcard_witness :
    listMetricsNormalize ['/', 'a'] = some ['/', 'a', '/', '*'] :=
  (listMetrics_namespace_wildcard ['/', 'a'] (by decide) (by decide) (by decide)).1

/-- C10: the normalization at the top of `listMetrics` evaluates
`ns[len(ns)-2:]` with a negative lower bound — and panics — exactly for
inputs of length one; the empty input and every input of length at
least two normalize to some query and the fetch proceeds. -/
theorem listMetricsNormalize_panics_iff_len_one (ns : List Char) :
    (ns.length = 1 →
      ((ns.length : Int) - 2 < 0 ∧
        goSliceFrom ns ((ns.length : Int) - 2) = none ∧
        listMetricsNormalize ns = none)) ∧
    (ns.length ≠ 1 → ∃ r, listMetricsNormalize ns = some r) := by
  constructor
  · intro h1
    have hneg : ((ns.length : Int) - 2) < 0 := by rw [h1]; decide
    have hnone : goSliceFrom ns ((ns.length : Int) - 2) = none := by
      unfold goSliceFrom
      rw [if_neg (by omega)]
    refine ⟨hneg, hnone, ?_⟩
    unfold listMetricsNormalize
    rw [if_pos (by intro h; subst h; simp at h1)]
    rw [hnone]
  · intro h1
    by_cases hn : ns = []
    · subst hn
      exact ⟨['/', '*'], by simp [listMetricsNormalize]⟩
    · have hlen : 2 ≤ ns.length := by
        have hpos : 0 < ns.length := List.length_pos.mpr hn
        omega
      obtain ⟨q, c1, c2, hq⟩ := exists_last_two _ hlen
      rw [hq]
      by_cases hw : [c1, c2] = ['/', '*']
      · have heq : q ++ [c1, c2] = q ++ ['/', '*'] := by rw [hw]
        rw [heq]
        exact ⟨q ++ ['/', '*'], listMetricsNormalize_wild q⟩
      · by_cases hsl : c2 = '/'
        · subst hsl
          have heq : q ++ [c1, '/'] = (q ++ [c1]) ++ ['/'] := by simp
          rw [heq]
          exact ⟨(q ++ [c1]) ++ ['/', '*'],
            by simpa using listMetricsNormalize_slash (q ++ [c1]) (by simp)⟩
        · have hc12 : ¬(c1 = '/' ∧ c2 = '*') := by
            rintro ⟨ha, hb⟩
            exact hw (by rw [ha, hb])
          exact ⟨q ++ [c1, c2] ++ ['/', '*'],
            listMetricsNormalize_bare q c1 c2 hc12 hsl⟩

/-- Witness for C10 at the one-character namespace "/": the slice lower
bound is negative and the normalization panics. -/
theorem listMetricsNormalize_panics_witness :
    ((['/'].length : Int) - 2 < 0 ∧
      goSliceFrom ['/'] ((['/'].length : Int) - 2) = none ∧
      listMetricsNormalize ['/'] = none) :=
  (listMetricsNormalize_panics_iff_len_one ['/']).1 rfl

/-- An out-of-range log level fails validation with the log-level
message. -/
lemma validateLevelSettings_badLog (ll pt : Int) (h : ll < 1 ∨ 5 < ll) :
    validateLevelSettings ll pt = some "log level was invalid (needs: 1-5)" := by
  unfold validateLevelSettings
  rw [if_pos (by omega)]

/-- A valid log level with an out-of-range trust level fails validation
with the trust message. -/
lemma validateLevelSettings_badTrust (ll pt : Int) (h1 : 1 ≤ ll ∧ ll ≤ 5)
    (h2 : pt < 0 ∨ 2 < pt) :
    validateLevelSettings ll pt = some "Plugin trust was invalid (needs: 0-2)" := by
  unfold validateLevelSettings
  rw [if_neg (by omega), if_pos (by omega)]

/-- In-range levels pass validation. -/
lemma validateLevelSettings_ok (ll pt : Int) (h1 : 1 ≤ ll ∧ ll ≤ 5)
    (h2 : 0 ≤ pt ∧ pt ≤ 2) :
    validateLevelSettings ll pt = none := by
  unfold validateLevelSettings
  rw [if_neg (by omega), if_neg (by omega)]

/-- C8: snapd's startup aborts with a fatal error instead of serving
whenever the log level is outside 1-5, the plugin trust level is
outside 0-2, or trust is positive with no keyring path configured —
whatever the outcomes of the surrounding startup steps. -/
theorem snapd_fatal_on_invalid_settings (ll pt : Int) (kp : String)
    (cacheOk : Bool) (moduleErr : Option String) (keyringOk : String → Bool)
    (h : ll < 1 ∨ 5 < ll ∨ pt < 0 ∨ 2 < pt ∨ (0 < pt ∧ kp = "")) :
    ∃ m, actionStartup ll pt kp cacheOk moduleErr keyringOk = Startup.fatal m := by
  cases cacheOk with
  | false => exact ⟨"invalid cache-expiration format", by simp [actionStartup]⟩
  | true =>
    by_cases h1 : ll < 1 ∨ 5 < ll
    · exact ⟨"log level was invalid (needs: 1-5)",
        by simp [actionStartup, validateLevelSettings_badLog ll pt h1]⟩
    · by_cases htr : pt < 0 ∨ 2 < pt
      · exact ⟨"Plugin trust was invalid (needs: 0-2)", by
          simp [actionStartup, validateLevelSettings_badTrust ll pt (by omega) htr]⟩
      · obtain ⟨hpt, hkp⟩ : 0 < pt ∧ kp = "" := by
          rcases h with h | h | h | h | h
          · exact absurd (Or.inl h) h1
          · exact absurd (Or.inr h) h1
          · exact absurd (Or.inl h) htr
          · exact absurd (Or.inr h) htr
          · exact h
        have hval : validateLevelSettings ll pt = none :=
          validateLevelSettings_ok ll pt (by omega) (by omega)
        subst hkp
        cases moduleErr with
        | some m => exact ⟨m, by simp [actionStartup, hval]⟩
        | none =>
          refine ⟨"need keyring file when trust is on (--keyring-file or -k)", ?_⟩
          simp [actionStartup, hval, splitList, hpt]

/-- Witness for C8: trust level 1 with no keyring path is fatal. -/
theorem snapd_fatal_on_invalid_settings_witness :
    ∃ m, actionStartup 3 1 "" true none (fun _ => true) = Startup.fatal m :=
  snapd_fatal_on_invalid_settings 3 1 "" true none (fun _ => true)
    (Or.inr (Or.inr (Or.inr (Or.inr ⟨by decide, rfl⟩))))

/-- `strings.Split` never yields an empty group list. -/
lemma splitChar_ne_nil (sep : Char) (l : List Char) : splitChar sep l ≠ [] := by
  cases l with
  | nil => simp [splitChar]
  | cons c rest =>
    by_cases hc : c = sep
    · simp [splitChar, hc]
    · cases h : splitChar sep rest with
      | nil => simp [splitChar, hc, h]
      | cons g gs => simp [splitChar, hc, h]

/-- Splitting a list that starts with the separator puts an empty group
first. -/
lemma splitChar_cons_sep (sep : Char) (l : List Char) :
    splitChar sep (sep :: l) = [] :: splitChar sep l := by
  simp [splitChar]

/-- The element loop of `getNamespace` on a slice with the leading empty
group: it succeeds and equals the fold that rewrites the path segments
at the declared indexes, provided every index addresses a segment. -/
lemma applyDynElems_cons_empty (es : List DynamicElement) :
    ∀ segs : List (List Char),
      (∀ v ∈ es, 0 ≤ v.index ∧ v.index.toNat < segs.length) →
      applyDynElems ([] :: segs) es =
        some ([] :: es.foldl
          (fun s v => s.set v.index.toNat ('[' :: v.name.data ++ [']'])) segs) := by
  induction es with
  | nil => intro segs _; rfl
  | cons v rest ih =>
    intro segs hval
    obtain ⟨hv0, hvlt⟩ := hval v (by simp)
    have hset : goSet ([] :: segs) (v.index + 1) ('[' :: v.name.data ++ [']'])
        = some ([] :: segs.set v.index.toNat ('[' :: v.name.data ++ [']'])) := by
      unfold goSet
      rw [if_pos (by constructor <;> [omega; (simp; omega)])]
      congr 1
      have ht : (v.index + 1).toNat = v.index.toNat + 1 := by omega
      rw [ht]
      rfl
    simp only [applyDynElems, hset, List.foldl_cons]
    exact ih (segs.set v.index.toNat ('[' :: v.name.data ++ [']']))
      (by intro w hw; have := hval w (by simp [hw]); simpa using this)

/-- The fold over the dynamic elements preserves the number of
segments. -/
lemma foldl_set_length (es : List DynamicElement) :
    ∀ segs : List (List Char),
      (es.foldl (fun s v => s.set v.index.toNat ('[' :: v.name.data ++ [']'])) segs).length
        = segs.length := by
  induction es with
  | nil => intro segs; rfl
  | cons v rest ih =>
    intro segs
    simp only [List.foldl_cons]
    rw [ih]
    exact List.length_set ..

/-- Joining with the separator after a leading empty group prepends the
separator. -/
lemma intercalate_cons_empty (gs : List (List Char)) (h : gs ≠ []) :
    List.intercalate ['/'] ([] :: gs) = '/' :: List.intercalate ['/'] gs := by
  cases gs with
  | nil => exact absurd rfl h
  | cons g gs' => simp [List.intercalate]

/-- C7: for a metric marked dynamic, whose namespace starts with `/` and
whose declared dynamic-element indexes each address an existing path
segment, `getNamespace` renders the namespace with the segment at each
declared index replaced by the element's bracketed name; a metric not
marked dynamic is rendered unchanged. -/
theorem getNamespace_spec (mt : Metric) (r : List Char)
    (hns : mt.ns = '/' :: r)
    (hidx : ∀ v ∈ mt.dynamicElements,
      0 ≤ v.index ∧ v.index.toNat < (pathSegments mt.ns).length) :
    (mt.dynamic = true →
      getNamespace mt = some (specRenderedNamespace mt.ns mt.dynamicElements)) ∧
    (mt.dynamic = false → getNamespace mt = some mt.ns) := by
  constructor
  · intro hdyn
    have hsegs : pathSegments mt.ns = splitChar '/' r := by
      rw [hns]
      unfold pathSegments
      rw [splitChar_cons_sep]
      rfl
    rw [hsegs] at hidx
    have happ := applyDynElems_cons_empty mt.dynamicElements (splitChar '/' r) hidx
    have hlen : (mt.dynamicElements.foldl
        (fun s v => s.set v.index.toNat ('[' :: v.name.data ++ [']']))
        (splitChar '/' r)).length = (splitChar '/' r).length :=
      foldl_set_length mt.dynamicElements (splitChar '/' r)
    have hne : mt.dynamicElements.foldl
        (fun s v => s.set v.index.toNat ('[' :: v.name.data ++ [']']))
        (splitChar '/' r) ≠ [] := by
      intro h0
      rw [h0] at hlen
      exact splitChar_ne_nil '/' r (List.length_eq_zero.mp hlen.symm)
    unfold getNamespace
    rw [hdyn, if_pos rfl, hns, splitChar_cons_sep, ← hns, happ]
    unfold specRenderedNamespace
    rw [hsegs]
    simp only [Option.map_some']
    rw [intercalate_cons_empty _ hne]
  · intro hdyn
    unfold getNamespace
    rw [hdyn]
    rfl

/-- Witness for C7: the dynamic metric with namespace "/a/b" and one
element at index 0 renders as "/[h]/b". -/
theorem getNamespace_spec_witness :
    getNamespace ⟨['/', 'a', '/', 'b'], true, [⟨"h", 0, "host"⟩]⟩ =
      some (specRenderedNamespace ['/', 'a', '/', 'b'] [⟨"h", 0, "host"⟩]) :=
  (getNamespace_spec ⟨['/', 'a', '/', 'b'], true, [⟨"h", 0, "host"⟩]⟩
    ['a', '/', 'b'] rfl (by decide)).1 rfl

/-- A request whose first part is a signature file is rejected with 500
before anything is written. -/
lemma loadPlugin_first_asc (sha : Bytes → Nat) (goos : String)
    (load : RequestedPlugin → Except String SnapPlugin) (fs : FS)
    (p0 : MPart) (rest : List MPart) (h : goExt p0.filename = ".asc") :
    loadPlugin sha goos load fs (p0 :: rest) =
      (fs, 500, .err "Error: first file passed to load plugin api can not be signature file") := by
  simp [loadPlugin, loadLoop, h]

/-- A request whose second part is not a signature file is rejected with
500. -/
lemma loadPlugin_second_not_asc (sha : Bytes → Nat) (goos : String)
    (load : RequestedPlugin → Except String SnapPlugin) (fs : FS)
    (p0 p1 : MPart) (rest : List MPart)
    (h0 : ¬goExt p0.filename = ".asc") (h1 : ¬goExt p1.filename = ".asc") :
    (loadPlugin sha goos load fs (p0 :: p1 :: rest)).2 =
      (500, .err "Error: second file passed was not a signature file") := by
  simp [loadPlugin, loadLoop, h0, h1]

/-- A request with a third part is rejected with 500. -/
lemma loadPlugin_three_parts (sha : Bytes → Nat) (goos : String)
    (load : RequestedPlugin → Except String SnapPlugin) (fs : FS)
    (p0 p1 p2 : MPart) (rest : List MPart)
    (h0 : ¬goExt p0.filename = ".asc") (h1 : goExt p1.filename = ".asc") :
    (loadPlugin sha goos load fs (p0 :: p1 :: p2 :: rest)).2 =
      (500, .err "Error: More than two files passed to the load plugin api") := by
  simp [loadPlugin, loadLoop, h0, h1]

/-- The loop state after a single well-formed binary part. -/
lemma loadLoop_single (sha : Bytes → Nat) (goos : String) (fs : FS)
    (p0 : MPart) (h : ¬goExt p0.filename = ".asc") :
    loadLoop sha goos [p0] 0 ⟨fs, none, [], 0⟩ =
      (⟨(writeFile goos fs p0.filename p0.content).1,
        some ⟨fs.tmpCounter, p0.filename⟩, [], sha p0.content⟩, none) := by
  simp [loadLoop, h, writeFile]

/-- The loop state after a well-formed binary part and signature part. -/
lemma loadLoop_pair (sha : Bytes → Nat) (goos : String) (fs : FS)
    (p0 p1 : MPart) (h0 : ¬goExt p0.filename = ".asc")
    (h1 : goExt p1.filename = ".asc") :
    loadLoop sha goos [p0, p1] 0 ⟨fs, none, [], 0⟩ =
      (⟨(writeFile goos fs p0.filename p0.content).1,
        some ⟨fs.tmpCounter, p0.filename⟩, p1.content, sha p0.content⟩, none) := by
  simp [loadLoop, h0, h1, writeFile]

/-- Reading back the file just written yields the uploaded bytes. -/
lemma lookup_writeFile (goos : String) (fs : FS) (fn : String) (b : Bytes) :
    FS.lookup (writeFile goos fs fn b).1 ⟨fs.tmpCounter, fn⟩ = some b := by
  simp [FS.lookup, writeFile, lookupFiles]

/-- loadFinish after a well-formed loop run: the manager's answer on the
requested plugin decides the response. -/
lemma loadFinish_after (sha : Bytes → Nat)
    (load : RequestedPlugin → Except String SnapPlugin)
    (fsx : FS) (p : FPath) (c sig : Bytes) (hl : fsx.lookup p = some c) :
    loadFinish sha load ⟨fsx, some p, sig, sha c⟩ =
      (match load ⟨p, sha c, sig⟩ with
        | .error m =>
          (fsx.removeDir p.dir, (if m = PluginAlreadyLoaded then 409 else 500), .err m)
        | .ok pl => (fsx, 201, .loaded [pl])) := by
  simp [loadFinish, newRequestedPlugin, hl]

/-- C1 (amended): the load handler accepts exactly one or two parts with
the binary first and an optional ".asc" signature second; it responds
201 on success, 409 when the plugin is already loaded, 500 — not 400 —
on an order violation (first part a ".asc" file, a non-".asc" second
part, more than two parts, or no part at all), and 500 on a checksum
mismatch between the uploaded bytes and the file on disk. -/
theorem loadPlugin_contract (sha : Bytes → Nat) (goos : String)
    (load : RequestedPlugin → Except String SnapPlugin) (fs : FS) :
    ((loadPlugin sha goos load fs []).2.1 = 500) ∧
    (∀ p0 rest, goExt p0.filename = ".asc" →
      loadPlugin sha goos load fs (p0 :: rest) =
        (fs, 500, .err "Error: first file passed to load plugin api can not be signature file")) ∧
    (∀ p0 p1 rest, ¬goExt p0.filename = ".asc" → ¬goExt p1.filename = ".asc" →
      (loadPlugin sha goos load fs (p0 :: p1 :: rest)).2 =
        (500, .err "Error: second file passed was not a signature file")) ∧
    (∀ p0 p1 p2 rest, ¬goExt p0.filename = ".asc" → goExt p1.filename = ".asc" →
      (loadPlugin sha goos load fs (p0 :: p1 :: p2 :: rest)).2 =
        (500, .err "Error: More than two files passed to the load plugin api")) ∧
    (∀ p0 pl, ¬goExt p0.filename = ".asc" →
      load ⟨⟨fs.tmpCounter, p0.filename⟩, sha p0.content, []⟩ = .ok pl →
      loadPlugin sha goos load fs [p0] =
        ((writeFile goos fs p0.filename p0.content).1, 201, .loaded [pl])) ∧
    (∀ p0 m, ¬goExt p0.filename = ".asc" →
      load ⟨⟨fs.tmpCounter, p0.filename⟩, sha p0.content, []⟩ = .error m →
      (loadPlugin sha goos load fs [p0]).2.1 =
        (if m = PluginAlreadyLoaded then 409 else 500)) ∧
    (∀ p0 p1 pl, ¬goExt p0.filename = ".asc" → goExt p1.filename = ".asc" →
      load ⟨⟨fs.tmpCounter, p0.filename⟩, sha p0.content, p1.content⟩ = .ok pl →
      loadPlugin sha goos load fs [p0, p1] =
        ((writeFile goos fs p0.filename p0.content).1, 201, .loaded [pl])) ∧
    (∀ p0 p1 m, ¬goExt p0.filename = ".asc" → goExt p1.filename = ".asc" →
      load ⟨⟨fs.tmpCounter, p0.filename⟩, sha p0.content, p1.content⟩ = .error m →
      (loadPlugin sha goos load fs [p0, p1]).2.1 =
        (if m = PluginAlreadyLoaded then 409 else 500)) ∧
    (∀ st p c, st.pluginPath = some p → st.fs.lookup p = some c →
      sha c ≠ st.checkSum →
      loadFinish sha load st =
        (st.fs, 500, .err "Error: CheckSum mismatch on requested plugin to load")) := by
  refine ⟨?_, ?_, ?_, ?_, ?_, ?_, ?_, ?_, ?_⟩
  · simp [loadPlugin, loadLoop, loadFinish, newRequestedPlugin]
  · intro p0 rest h
    exact loadPlugin_first_asc sha goos load fs p0 rest h
  · intro p0 p1 rest h0 h1
    exact loadPlugin_second_not_asc sha goos load fs p0 p1 rest h0 h1
  · intro p0 p1 p2 rest h0 h1
    exact loadPlugin_three_parts sha goos load fs p0 p1 p2 rest h0 h1
  · intro p0 pl h0 hl
    rw [loadPlugin, loadLoop_single sha goos fs p0 h0]
    show loadFinish sha load ⟨(writeFile goos fs p0.filename p0.content).1,
      some ⟨fs.tmpCounter, p0.filename⟩, [], sha p0.content⟩ = _
    rw [loadFinish_after sha load _ _ p0.content []
      (lookup_writeFile goos fs p0.filename p0.content), hl]
  · intro p0 m h0 hl
    rw [loadPlugin, loadLoop_single sha goos fs p0 h0]
    show (loadFinish sha load ⟨(writeFile goos fs p0.filename p0.content).1,
      some ⟨fs.tmpCounter, p0.filename⟩, [], sha p0.content⟩).2.1 = _
    rw [loadFinish_after sha load _ _ p0.content []
      (lookup_writeFile goos fs p0.filename p0.content), hl]
  · intro p0 p1 pl h0 h1 hl
    rw [loadPlugin, loadLoop_pair sha goos fs p0 p1 h0 h1]
    show loadFinish sha load ⟨(writeFile goos fs p0.filename p0.content).1,
      some ⟨fs.tmpCounter, p0.filename⟩, p1.content, sha p0.content⟩ = _
    rw [loadFinish_after sha load _ _ p0.content p1.content
      (lookup_writeFile goos fs p0.filename p0.content), hl]
  · intro p0 p1 m h0 h1 hl
    rw [loadPlugin, loadLoop_pair sha goos fs p0 p1 h0 h1]
    show (loadFinish sha load ⟨(writeFile goos fs p0.filename p0.content).1,
      some ⟨fs.tmpCounter, p0.filename⟩, p1.content, sha p0.content⟩).2.1 = _
    rw [loadFinish_after sha load _ _ p0.content p1.content
      (lookup_writeFile goos fs p0.filename p0.content), hl]
  · intro st p c hp hc hne
    simp [loadFinish, newRequestedPlugin, hp, hc, hne]

/-- A concrete stand-in for the SHA-256 digest in evaluated examples. -/
def shaLen : Bytes → Nat := fun b => b.length

/-- The empty filesystem. -/
def fs0 : FS := ⟨[], 0⟩

/-- A concrete binary part. -/
def binPart : MPart := ⟨"snap-collector-mock1", [1, 2, 3]⟩

/-- A concrete signature part. -/
def ascPart : MPart := ⟨"snap-collector-mock1.asc", [9]⟩

/-- A concrete cataloged plugin. -/
def mockPl : SnapPlugin := ⟨"mock", 1, "collector"⟩

/-- A manager whose Load succeeds with `mockPl`. -/
def loadOkMock : RequestedPlugin → Except String SnapPlugin := fun _ => .ok mockPl

/-- A manager whose Load fails with a generic error. -/
def loadFailGeneric : RequestedPlugin → Except String SnapPlugin :=
  fun _ => .error "load failed"

/-- A manager whose Unload reports the plugin absent. -/
def unloadAbsent : String → Int → String → Except String SnapPlugin :=
  fun _ _ _ => .error "plugin not found"

/-- A manager whose Unload succeeds, echoing the requested identity. -/
def unloadOkEcho : String → Int → String → Except String SnapPlugin :=
  fun n v t => .ok ⟨n, v, t⟩

/-- A manager whose SwapPlugins fails with the already-loaded error. -/
def swapAlreadyLoaded : RequestedPlugin → SnapPlugin → Except String (SnapPlugin × SnapPlugin) :=
  fun _ _ => .error PluginAlreadyLoaded

/-- Counterexample to C1 as stated: the multipart load request whose
only part is the signature file "snap-collector-mock1.asc" — a part
order violation — is answered with status 500, not 400. -/
theorem loadPlugin_order_violation_not_400 :
    (loadPlugin shaLen "linux" loadFailGeneric fs0 [ascPart]).2.1 = 500 ∧
    (loadPlugin shaLen "linux" loadFailGeneric fs0 [ascPart]).2.1 ≠ 400 := by
  constructor
  · rfl
  · decide

/-- Witness for C1 (amended) at a concrete request: a single well-formed
binary part whose Load succeeds is answered 201. -/
theorem loadPlugin_contract_witness :
    loadPlugin shaLen "linux" loadOkMock fs0 [binPart] =
      ((writeFile "linux" fs0 binPart.filename binPart.content).1, 201, .loaded [mockPl]) :=
  (loadPlugin_contract shaLen "linux" loadOkMock fs0).2.2.2.2.1 binPart mockPl
    (by decide) rfl

/-- C2 (amended): the unload handler responds 400 when the version does
not parse as an integer, 400 when the name or the type is missing, 500
with the manager's failure when Unload fails — including when no plugin
with that identity is present — and 200 with the unloaded plugin's
identity on success; it never responds 404. -/
theorem unloadPlugin_contract (unload : String → Int → String → Except String SnapPlugin)
    (plName plType plVersion : String) :
    (goParseInt64 plVersion = none →
      unloadPlugin unload plName plType plVersion = (400, .err "invalid version")) ∧
    (∀ v, goParseInt64 plVersion = some v → plName = "" →
      unloadPlugin unload plName plType plVersion = (400, .err "missing plugin name")) ∧
    (∀ v, goParseInt64 plVersion = some v → plName ≠ "" → plType = "" →
      unloadPlugin unload plName plType plVersion = (400, .err "missing plugin type")) ∧
    (∀ v m, goParseInt64 plVersion = some v → plName ≠ "" → plType ≠ "" →
      unload plName v plType = .error m →
      unloadPlugin unload plName plType plVersion = (500, .err m)) ∧
    (∀ v up, goParseInt64 plVersion = some v → plName ≠ "" → plType ≠ "" →
      unload plName v plType = .ok up →
      unloadPlugin unload plName plType plVersion =
        (200, .unloaded up.name up.version up.ptype)) ∧
    ((unloadPlugin unload plName plType plVersion).1 ≠ 404) := by
  refine ⟨?_, ?_, ?_, ?_, ?_, ?_⟩
  · intro h
    simp [unloadPlugin, h]
  · intro v hv hn
    simp [unloadPlugin, hv, hn]
  · intro v hv hn ht
    simp [unloadPlugin, hv, hn, ht]
  · intro v m hv hn ht hu
    simp [unloadPlugin, hv, hn, ht, hu]
  · intro v up hv hn ht hu
    simp [unloadPlugin, hv, hn, ht, hu]
  · unfold unloadPlugin
    cases goParseInt64 plVersion with
    | none => simp
    | some v =>
      by_cases hn : plName = ""
      · simp [hn]
      · by_cases ht : plType = ""
        · simp [hn, ht]
        · cases hu : unload plName v plType with
          | error m => simp [hn, ht, hu]
          | ok up => simp [hn, ht, hu]

/-- Counterexample to C2 as stated: a well-formed unload request for a
plugin that is not present is answered 500 (the manager's failure mapped
by the handler), never 404. -/
theorem unloadPlugin_absent_not_404 :
    unloadPlugin unloadAbsent "mock" "collector" "1" = (500, .err "plugin not found") ∧
    (unloadPlugin unloadAbsent "mock" "collector" "1").1 ≠ 404 := by
  constructor
  · rfl
  · decide

/-- Witness for C2 (amended) at a concrete request: a successful unload
of mock@2 is answered 200 with the unloaded identity. -/
theorem unloadPlugin_contract_witness :
    unloadPlugin unloadOkEcho "mock" "collector" "2" =
      (200, .unloaded "mock" 2 "collector") :=
  (unloadPlugin_contract unloadOkEcho "mock" "collector" "2").2.2.2.2.1 2
    ⟨"mock", 2, "collector"⟩ rfl (by decide) (by decide) rfl

/-- C3: `writeFile` always places the uploaded binary in a fresh
temporary directory (no existing file shares it) and sets the file's
mode to 0700 on non-Windows systems; and when the binary part was
written but the subsequent Load fails, the handler removes the
temporary directory, leaving the filesystem's files as before the
request. -/
theorem load_failure_cleanup (sha : Bytes → Nat) (goos : String)
    (load : RequestedPlugin → Except String SnapPlugin) (fs : FS)
    (hwf : fs.wf) :
    (∀ fn b f, f ∈ fs.files → f.path.dir ≠ (writeFile goos fs fn b).2.dir) ∧
    (∀ fn b, goos ≠ "windows" →
      (writeFile goos fs fn b).1.files = ⟨⟨fs.tmpCounter, fn⟩, b, 0o700⟩ :: fs.files) ∧
    (∀ p0 m, ¬goExt p0.filename = ".asc" →
      load ⟨⟨fs.tmpCounter, p0.filename⟩, sha p0.content, []⟩ = .error m →
      (loadPlugin sha goos load fs [p0]).1.files = fs.files) ∧
    (∀ p0 p1 m, ¬goExt p0.filename = ".asc" → goExt p1.filename = ".asc" →
      load ⟨⟨fs.tmpCounter, p0.filename⟩, sha p0.content, p1.content⟩ = .error m →
      (loadPlugin sha goos load fs [p0, p1]).1.files = fs.files) := by
  have hclean : ∀ fn b,
      ((writeFile goos fs fn b).1.removeDir fs.tmpCounter).files = fs.files := by
    intro fn b
    show List.filter (fun f => decide (f.path.dir ≠ fs.tmpCounter))
      ((writeFile goos fs fn b).1.files) = fs.files
    rw [show (writeFile goos fs fn b).1.files =
      ⟨⟨fs.tmpCounter, fn⟩, b, if goos ≠ "windows" then 448 else 438⟩ :: fs.files from rfl]
    rw [List.filter_cons]
    rw [if_neg (by simp)]
    rw [List.filter_eq_self]
    intro f hf
    have := hwf f hf
    simp only [ne_eq, decide_eq_true_eq]
    omega
  refine ⟨?_, ?_, ?_, ?_⟩
  · intro fn b f hf
    have := hwf f hf
    show f.path.dir ≠ fs.tmpCounter
    omega
  · intro fn b hg
    show (⟨⟨⟨fs.tmpCounter, fn⟩, b, if goos ≠ "windows" then 448 else 438⟩ :: fs.files,
      fs.tmpCounter + 1⟩ : FS).files = _
    rw [if_pos hg]
  · intro p0 m h0 hl
    rw [loadPlugin, loadLoop_single sha goos fs p0 h0]
    show (loadFinish sha load ⟨(writeFile goos fs p0.filename p0.content).1,
      some ⟨fs.tmpCounter, p0.filename⟩, [], sha p0.content⟩).1.files = _
    rw [loadFinish_after sha load _ _ p0.content []
      (lookup_writeFile goos fs p0.filename p0.content), hl]
    exact hclean p0.filename p0.content
  · intro p0 p1 m h0 h1 hl
    rw [loadPlugin, loadLoop_pair sha goos fs p0 p1 h0 h1]
    show (loadFinish sha load ⟨(writeFile goos fs p0.filename p0.content).1,
      some ⟨fs.tmpCounter, p0.filename⟩, p1.content, sha p0.content⟩).1.files = _
    rw [loadFinish_after sha load _ _ p0.content p1.content
      (lookup_writeFile goos fs p0.filename p0.content), hl]
    exact hclean p0.filename p0.content

/-- Witness for C3 at a concrete request: a failed load of a single
binary part leaves the (initially empty) filesystem unchanged. -/
theorem load_failure_cleanup_witness :
    (loadPlugin shaLen "linux" loadFailGeneric fs0 [binPart]).1.files = fs0.files :=
  (load_failure_cleanup shaLen "linux" loadFailGeneric fs0
    (by intro f hf; simp [fs0] at hf)).2.2.1 binPart "load failed" (by decide) rfl

/-- C4 (code-bug evidence): a swap request with a well-formed binary
part whose SwapPlugins fails with "plugin is already loaded" makes the
handler crash — the failure branch passes the stale nil `err` variable
to `rbody.FromError` instead of the failure `se` — so it responds
neither 409 nor with a body built from that failure. -/
theorem swapPlugins_crashes_on_failure :
    swapPlugins shaLen "linux" swapAlreadyLoaded fs0 [binPart] "mock" "collector" "1" =
      SwapOutcome.crashed ∧
    ∀ fsx st b,
      swapPlugins shaLen "linux" swapAlreadyLoaded fs0 [binPart] "mock" "collector" "1" ≠
        SwapOutcome.resp fsx st b := by
  have h0 : swapPlugins shaLen "linux" swapAlreadyLoaded fs0 [binPart]
      "mock" "collector" "1" = SwapOutcome.crashed := rfl
  refine ⟨h0, ?_⟩
  intro fsx st b hc
  rw [h0] at hc
  exact SwapOutcome.noConfusion hc
